import Mathlib

/-
Verification of the algorithm/parameter/result resolution core of
Biosimulations_COBRApy (src/biosimulators_cobrapy/utils.py and
src/biosimulators_cobrapy/core.py).

Shallow embedding conventions:
* the algorithm registry (KISAO_ALGORITHMS_PARAMETERS_MAP, defined in
  data_model.py which is not part of the two source files) is a parameter:
  an association list of KiSAO id to `MethodProps`;
* the external collaborators `validate_str_value`, `parse_value`
  (biosimulators_utils.utils.core) and `re.match` (Python stdlib) are
  parameters of the embedded functions (`vsv`, `pv`, `reMatch`);
* Python in-place mutation of the model and of the keyword-argument dict is
  explicit state passing; a raised exception is an `Except.error`;
* Python's `sorted` on strings compares code points, embedded by `strLe`
  on the character lists; Python `set` construction is `pySet` (membership
  is all downstream code observes, since every listing is sorted first);
* Python `str.lower` is embedded by `pyLower` (ASCII lowering, which agrees
  with Python on the ASCII enum names the registry uses);
* `numpy.array` only wraps an extraction result, so results are stored
  unwrapped.
-/

/-- Parsed parameter values (results of `parse_value` / enum substitution). -/
inductive Value where
  | str : String → Value
  | num : Int → Value
  | bool : Bool → Value
  | list : List String → Value
deriving DecidableEq, Repr

/-- Exceptions raised by the core, tagged by the spec's error taxonomy.
Each constructor corresponds to one raise site:
`unsupportedParameter` = NotImplementedError at utils.py:46,
`invalidParameterValue` = ValueError at utils.py:53, 63 and 84,
`unsupportedSymbol` = NotImplementedError at utils.py:117,
`unsupportedVariable` = ValueError at utils.py:131,
`notFound` = NotImplementedError at core.py:89,
`optimizationFailed` = cobra OptimizationError at core.py:104,
`keyError` and `unboundLocal` are the Python runtime errors reachable in
`get_results_of_variables`, `typeError` the runtime error of `set` applied
to a non-list value. -/
inductive Err where
  | unsupportedParameter : String → Err
  | invalidParameterValue : String → Err
  | unsupportedSymbol : String → Err
  | unsupportedVariable : String → Err
  | notFound : String → Err
  | optimizationFailed : String → Err
  | keyError : String → Err
  | unboundLocal : String → Err
  | typeError : String → Err
deriving DecidableEq, Repr

/-- A SED algorithm parameter change (`AlgorithmParameterChange`): a KiSAO id
and the raw string value. -/
structure ArgumentChange where
  kisao_id : String
  new_value : String
deriving DecidableEq, Repr

/-- One entry of `method_props['parameters']`: the parameter metadata dict.
`enum` is the optional enumerated value set (member name to value);
`alg_arg`/`model_arg` are the optional routing keys (`none` = key absent). -/
structure Parameter where
  name : String
  description : String
  type : String
  enum : Option (List (String × Value)) := none
  alg_arg : Option String := none
  model_arg : Option String := none

/-- The in-memory metabolic network (`cobra.core.model.Model`): the reaction
ids and the settable attributes `setattr` can mutate. -/
structure Model where
  reactions : List String
  attrs : List (String × Value) := []
deriving DecidableEq, Repr

/-- The solver's solution object: a status string plus the fields extraction
functions read. -/
structure Solution where
  status : String
  fluxes : List (String × Value) := []
  objective_value : Value := .num 0

/-- One entry of `method_props['variables']`: a target pattern with its
description, target kind, and extraction function. -/
structure VariablePattern where
  target : String
  description : String
  target_type : String
  get_result : Solution → Option String → Value

/-- One entry of the algorithm registry: the method properties dict. `vars`
embeds the dict's 'variables' key (a Lean keyword, hence the rename). -/
structure MethodProps where
  kisao_id : String
  name : String
  method : Model → List (String × Value) → Solution
  parameters : List (String × Parameter)
  vars : List VariablePattern

/-- A requested output variable (`DataGeneratorVariable`): result key, optional
symbol, and target expression. -/
structure Variable where
  id : String
  symbol : Option String := none
  target : String
deriving DecidableEq, Repr

/-- Python truthiness of an optional string attribute (None and "" are falsy). -/
def truthyStr : Option String → Bool
  | none => false
  | some s => !s.isEmpty

/-- Python dict assignment `d[k] = v`: replace the value at an existing key,
else append the new binding. -/
def dictSet (d : List (String × Value)) (k : String) (v : Value) :
    List (String × Value) :=
  if d.any (fun q => q.1 = k) then d.map (fun q => if q.1 = k then (k, v) else q)
  else d ++ [(k, v)]

/-- Python `s.add(x)` on a set represented as its insertion-ordered list of
distinct elements. -/
def setAdd (s : List String) (x : String) : List String :=
  if x ∈ s then s else s ++ [x]

/-- Python `set(l)`: the distinct elements of `l`. -/
def pySet (l : List String) : List String :=
  l.foldl setAdd []

/-- Code-point comparison of character lists: how Python compares strings. -/
def charLe : List Char → List Char → Bool
  | [], _ => true
  | _ :: _, [] => false
  | a :: as, b :: bs =>
    if a.toNat < b.toNat then true
    else if b.toNat < a.toNat then false
    else charLe as bs

/-- Python `<=` on strings. -/
def strLe (a b : String) : Bool :=
  charLe a.data b.data

/-- Python `sorted` on a list of strings. (Any sorting algorithm agrees with
Python's here: two `strLe`-sorted lists of one multiset of strings are equal.) -/
def pySort (l : List String) : List String :=
  List.insertionSort (fun a b => strLe a b = true) l

/-- Python `'\n  - '.join(l)`. -/
def joinBullets : List String → String
  | [] => ""
  | [x] => x
  | x :: y :: xs => x ++ "\n  - " ++ joinBullets (y :: xs)

/-- Python `str.lower` on the ASCII strings this code handles. -/
def pyLower (s : String) : String :=
  String.mk (s.data.map Char.toLower)

/-- Surround a string with backticks, as the message templates do. -/
def backtick (s : String) : String :=
  "`" ++ s ++ "`"

/-- The message of the NotImplementedError of utils.py:37-45 (unknown
parameter id). -/
def unsupportedParameterMsg (method_props : MethodProps)
    (argument_change : ArgumentChange) : String :=
  method_props.name ++ " (" ++ method_props.kisao_id ++
    ") does not support parameter `" ++ argument_change.kisao_id ++
    "`. The parameters of " ++ method_props.name ++
    " must have one of the following KiSAO ids:\n  - " ++
    joinBullets (method_props.parameters.map
      (fun q => q.1 ++ " (" ++ q.2.name ++ "): " ++ q.2.description))

/-- The message of the ValueError of utils.py:50-52 (value fails type
validation). -/
def invalidValueMsg (method_props : MethodProps) (parameter_kisao_id : String)
    (parameter : Parameter) (value : String) : String :=
  "`" ++ value ++ "` is not a valid value for parameter " ++ parameter.name ++
    " (" ++ parameter_kisao_id ++ ") of " ++ method_props.name ++
    " (" ++ method_props.kisao_id ++ ")"

/-- The message of the ValueError of utils.py:57-62 (value not an enum member
name). -/
def enumValueMsg (method_props : MethodProps) (parameter_kisao_id : String)
    (parameter : Parameter) (value : String) (enumList : List (String × Value)) :
    String :=
  "`" ++ value ++ "` is not a valid value for parameter " ++ parameter.name ++
    " (" ++ parameter_kisao_id ++ ") of " ++ method_props.name ++
    " (" ++ method_props.kisao_id ++ "). The value of " ++ method_props.name ++
    " must be one of the following:\n  - " ++
    joinBullets (pySort (enumList.map (fun q => backtick q.1)))

/-- The invalid reaction ids of a parsed identifier list: the set of parsed
values minus the model's reaction ids (utils.py:70-72). -/
def invalidReactionValues (ids : List String) (model : Model) : List String :=
  (pySet ids).filter (fun x => decide (x ∉ model.reactions))

/-- The message of the ValueError of utils.py:74-83 (identifiers that are not
reaction ids). -/
def reactionListMsg (method_props : MethodProps) (parameter_kisao_id : String)
    (parameter : Parameter) (invalid_values : List String) (model : Model) :
    String :=
  "Some of the values of " ++ parameter.name ++ " (" ++ parameter_kisao_id ++
    ") of " ++ method_props.name ++ " (" ++ method_props.kisao_id ++
    ") are not SBML ids of reactions:\n  - " ++
    joinBullets (pySort (invalid_values.map backtick)) ++
    "\n\nThe values of " ++ parameter.name ++
    " should be drawn from the following list of the SMBL ids of the reactions of the model:\n  - " ++
    joinBullets (pySort (model.reactions.map backtick))

/-- utils.py:19-90, `set_simulation_method_arg`: resolve one algorithm
parameter change against `method_props`, mutating either the keyword-argument
dict or the model. `vsv` and `pv` embed the external `validate_str_value` and
`parse_value`. Returns the new (model, kwargs) pair, or the raised error. -/
def set_simulation_method_arg (vsv : String → String → Bool)
    (pv : String → String → Value) (method_props : MethodProps)
    (argument_change : ArgumentChange) (model : Model)
    (model_method_kw_args : List (String × Value)) :
    Except Err (Model × List (String × Value)) :=
  let parameter_kisao_id := argument_change.kisao_id
  match List.lookup parameter_kisao_id method_props.parameters with
  | none =>
    .error (.unsupportedParameter
      (unsupportedParameterMsg method_props argument_change))
  | some parameter =>
    let value := argument_change.new_value
    if vsv value parameter.type = false then
      .error (.invalidParameterValue
        (invalidValueMsg method_props parameter_kisao_id parameter value))
    else
      -- parsed_value := parse_value, overridden by the enum's value when the
      -- parameter declares an enumerated value set (utils.py:54-67)
      let parsedE : Except Err Value :=
        match parameter.enum with
        | none => .ok (pv value parameter.type)
        | some enumList =>
          if (enumList.map Prod.fst).contains (pyLower value) = false then
            .error (.invalidParameterValue
              (enumValueMsg method_props parameter_kisao_id parameter value
                enumList))
          else
            .ok (((List.lookup (pyLower value) enumList)).getD
              (pv value parameter.type))
      match parsedE with
      | .error e => .error e
      | .ok parsed_value0 =>
        -- special policy for the reaction-list argument (utils.py:69-85)
        let reactionChecked : Except Err Value :=
          if parameter.alg_arg = some "reaction_list" then
            match parsed_value0 with
            | .list ids =>
              let invalid_values := invalidReactionValues ids model
              if invalid_values.isEmpty then .ok (.list (pySort (pySet ids)))
              else
                .error (.invalidParameterValue
                  (reactionListMsg method_props parameter_kisao_id parameter
                    invalid_values model))
            | _ => .error (.typeError "argument of type set() is not a list")
          else .ok parsed_value0
        match reactionChecked with
        | .error e => .error e
        | .ok parsed_value =>
          -- routing (utils.py:87-90)
          match parameter.alg_arg with
          | some a => .ok (model, dictSet model_method_kw_args a parsed_value)
          | none =>
            match parameter.model_arg with
            | some attr =>
              .ok ({ model with attrs := dictSet model.attrs attr parsed_value },
                model_method_kw_args)
            | none => .error (.keyError "model_arg")

example :
    set_simulation_method_arg (fun _ _ => true) (fun v _ => .str v)
      { kisao_id := "KA", name := "FBA", method := fun _ _ => ⟨"optimal", [], .num 0⟩,
        parameters := [("K1", { name := "p1", description := "d1", type := "string" })],
        vars := [] }
      ⟨"K9", "x"⟩ ⟨["R1"], []⟩ [] =
    .error (.unsupportedParameter
      ("FBA (KA) does not support parameter `K9`. The parameters of FBA" ++
        " must have one of the following KiSAO ids:\n  - K1 (p1): d1")) := rfl

example :
    set_simulation_method_arg (fun _ _ => true) (fun _ _ => .list ["b", "a", "b"])
      { kisao_id := "KA", name := "FBA", method := fun _ _ => ⟨"optimal", [], .num 0⟩,
        parameters := [("K1", { name := "p1", description := "d1", type := "list",
                                alg_arg := some "reaction_list" })],
        vars := [] }
      ⟨"K1", "[b, a, b]"⟩ ⟨["a", "b", "c"], []⟩ [] =
    .ok (⟨["a", "b", "c"], []⟩, [("reaction_list", .list ["a", "b"])]) := rfl

/-- The message of the NotImplementedError of utils.py:117-118 (variables with
symbols). -/
def symbolsMsg (method : MethodProps) : String :=
  method.name ++ " (" ++ method.kisao_id ++
    ") doesn't support variables with symbols"

/-- The message of the ValueError of utils.py:121-130 (targets that match no
pattern). -/
def unsupportedVariableMsg (method : MethodProps)
    (invalid_targets : List String) : String :=
  method.name ++ " (" ++ method.kisao_id ++
    ") doesn't support variables with the following target XPATHs:\n  - " ++
    joinBullets (pySort (invalid_targets.map backtick)) ++
    "\n\nThe targets of variables should match one of the following patterns of XPATHs:\n  - " ++
    joinBullets (pySort (method.vars.map
      (fun q => q.description ++ ": " ++ backtick q.target)))

/-- One iteration of the scanning loop of utils.py:102-114: a symbol-bearing
variable's symbol joins `invalid_symbols`; otherwise the target joins
`invalid_targets` unless some pattern matches it. -/
def collectStep (reMatch : String → String → Bool) (method : MethodProps)
    (acc : List String × List String) (v : Variable) :
    List String × List String :=
  if truthyStr v.symbol then (setAdd acc.1 (v.symbol.getD ""), acc.2)
  else if method.vars.any (fun q => reMatch q.target v.target) then acc
  else (acc.1, setAdd acc.2 v.target)

/-- The scanning loop of utils.py:100-114: fold over all requested variables,
collecting the set of symbols of symbol-bearing variables and the set of
target expressions matching no pattern. -/
def collectInvalid (reMatch : String → String → Bool) (method : MethodProps)
    (vars : List Variable) : List String × List String :=
  vars.foldl (collectStep reMatch method) ([], [])

/-- utils.py:93-131, `validate_variables`: scan every requested variable, then
fail on collected symbols first, else on collected unmatched targets. -/
def validate_variables (reMatch : String → String → Bool)
    (method : MethodProps) (vars : List Variable) : Except Err Unit :=
  let invalid := collectInvalid reMatch method vars
  if invalid.1.isEmpty = false then
    .error (.unsupportedSymbol (symbolsMsg method))
  else if invalid.2.isEmpty = false then
    .error (.unsupportedVariable (unsupportedVariableMsg method invalid.2))
  else .ok ()

/-- The loop of utils.py:149-161. The `result0` argument is the state of the
Python local variable `result` entering the iteration: `none` while it is
still unbound, else the value computed for the most recent variable that
matched a pattern. An unmatched variable leaves it unchanged; storing from an
unbound `result` is Python's UnboundLocalError; a reaction/species target
absent from `target_x_paths_ids` is a KeyError. -/
def get_results_loop (reMatch : String → String → Bool) (method : MethodProps)
    (target_x_paths_ids : List (String × String)) (solution : Solution) :
    List Variable → List (String × Value) → Option Value →
    Except Err (List (String × Value))
  | [], variable_results, _ => .ok variable_results
  | v :: rest, variable_results, result0 =>
    match List.find? (fun q => reMatch q.target v.target) method.vars with
    | some variable_pattern =>
      if variable_pattern.target_type = "reaction" ∨
          variable_pattern.target_type = "species" then
        match List.lookup v.target target_x_paths_ids with
        | none => .error (.keyError v.target)
        | some variable_target_id =>
          let result := variable_pattern.get_result solution
            (some variable_target_id)
          get_results_loop reMatch method target_x_paths_ids solution rest
            (dictSet variable_results v.id result) (some result)
      else
        let result := variable_pattern.get_result solution none
        get_results_loop reMatch method target_x_paths_ids solution rest
          (dictSet variable_results v.id result) (some result)
    | none =>
      match result0 with
      | none => .error (.unboundLocal "result")
      | some result =>
        get_results_loop reMatch method target_x_paths_ids solution rest
          (dictSet variable_results v.id result) (some result)

/-- utils.py:134-163, `get_results_of_variables`: build the mapping from
variable id to the value extracted by the first pattern matching its target. -/
def get_results_of_variables (reMatch : String → String → Bool)
    (method : MethodProps) (vars : List Variable)
    (target_x_paths_ids : List (String × String)) (solution : Solution) :
    Except Err (List (String × Value)) :=
  get_results_loop reMatch method target_x_paths_ids solution vars [] none

/-- The loop of core.py:92-94: resolve each parameter change in request order,
threading the model and keyword arguments. On a raise, the returned model and
kwargs are their state at the raise (Python mutates them in place, so the
caller observes that state), with the error in the third component. -/
def apply_changes (vsv : String → String → Bool) (pv : String → String → Value)
    (method_props : MethodProps) :
    Model → List (String × Value) → List ArgumentChange →
    Model × List (String × Value) × Option Err
  | model, kwargs, [] => (model, kwargs, none)
  | model, kwargs, c :: rest =>
    match set_simulation_method_arg vsv pv method_props c model kwargs with
    | .error e => (model, kwargs, some e)
    | .ok (model2, kwargs2) => apply_changes vsv pv method_props model2 kwargs2 rest

/-- The message of the NotImplementedError of core.py:83-88 (unknown algorithm
KiSAO id). -/
def notFoundMsg (registry : List (String × MethodProps))
    (algorithm_kisao_id : String) : String :=
  "Algorithm with KiSAO id '" ++ algorithm_kisao_id ++
    "' is not supported. Algorithm must have one of the following KiSAO ids:\n  - " ++
    joinBullets (registry.map (fun q => q.1 ++ ": " ++ q.2.name))

/-- The message of the OptimizationError of core.py:104-105. -/
def optimizationFailedMsg (status : String) : String :=
  "A solution could not be found. The solver status was '" ++ status ++ "'."

/-- core.py:52-108, `exec_sed_task`, from the registry lookup on (the upstream
task-shape validations and the model read are external collaborators, so the
loaded `model` and the precomputed `target_x_paths_ids` are inputs): registry
lookup, parameter resolution, variable validation, solver invocation, status
check, then extraction. -/
def exec_sed_task (reMatch : String → String → Bool)
    (vsv : String → String → Bool) (pv : String → String → Value)
    (registry : List (String × MethodProps)) (algorithm_kisao_id : String)
    (changes : List ArgumentChange) (vars : List Variable)
    (target_x_paths_ids : List (String × String)) (model : Model) :
    Except Err (List (String × Value)) :=
  match List.lookup algorithm_kisao_id registry with
  | none => .error (.notFound (notFoundMsg registry algorithm_kisao_id))
  | some method_props =>
    match apply_changes vsv pv method_props model [] changes with
    | (_, _, some e) => .error e
    | (model2, method_kw_args, none) =>
      match validate_variables reMatch method_props vars with
      | .error e => .error e
      | .ok _ =>
        let solution := method_props.method model2 method_kw_args
        if solution.status ≠ "optimal" then
          .error (.optimizationFailed (optimizationFailedMsg solution.status))
        else
          get_results_of_variables reMatch method_props vars
            target_x_paths_ids solution

/-- Replace every pattern's extraction function (used to state that a failing
run never invokes extraction: its outcome does not depend on them). -/
def setGetResults (props : MethodProps)
    (f : Solution → Option String → Value) : MethodProps :=
  { props with vars := props.vars.map (fun q => { q with get_result := f }) }

/-- Replace the solver callable (used to state that a failing run never
invokes the solver: its outcome does not depend on it). -/
def setMethod (props : MethodProps)
    (f : Model → List (String × Value) → Solution) : MethodProps :=
  { props with method := f }

/-! Order facts about the embedded Python string comparison. -/

theorem char_toNat_injective : Function.Injective Char.toNat :=
  StrictMono.injective fun _ _ h => h

theorem charLe_trans : ∀ {a b c : List Char},
    charLe a b = true → charLe b c = true → charLe a c = true
  | [], _, _, _, _ => rfl
  | _ :: _, [], _, h1, _ => by simp [charLe] at h1
  | _ :: _, _ :: _, [], _, h2 => by simp [charLe] at h2
  | x :: xs, y :: ys, z :: zs, h1, h2 => by
    simp only [charLe] at h1 h2 ⊢
    rcases Nat.lt_trichotomy x.toNat y.toNat with hxy | hxy | hxy <;>
      rcases Nat.lt_trichotomy y.toNat z.toNat with hyz | hyz | hyz
    · simp [show x.toNat < z.toNat by omega]
    · simp [show x.toNat < z.toNat by omega]
    · simp [show ¬ y.toNat < z.toNat by omega, show z.toNat < y.toNat by omega] at h2
    · simp [show x.toNat < z.toNat by omega]
    · simp only [show ¬ x.toNat < y.toNat by omega,
        show ¬ y.toNat < x.toNat by omega, if_neg, if_false, ite_false,
        ite_self] at h1
      simp only [show ¬ y.toNat < z.toNat by omega,
        show ¬ z.toNat < y.toNat by omega, ite_false] at h2
      simp only [show ¬ x.toNat < z.toNat by omega,
        show ¬ z.toNat < x.toNat by omega, ite_false]
      exact charLe_trans (by simpa using h1) (by simpa using h2)
    · simp [show ¬ y.toNat < z.toNat by omega, show z.toNat < y.toNat by omega] at h2
    · simp [show ¬ x.toNat < y.toNat by omega, show y.toNat < x.toNat by omega] at h1
    · simp [show ¬ x.toNat < y.toNat by omega, show y.toNat < x.toNat by omega] at h1
    · simp [show ¬ x.toNat < y.toNat by omega, show y.toNat < x.toNat by omega] at h1

theorem charLe_total : ∀ (a b : List Char), charLe a b = true ∨ charLe b a = true
  | [], _ => Or.inl rfl
  | _ :: _, [] => Or.inr rfl
  | x :: xs, y :: ys => by
    simp only [charLe]
    rcases Nat.lt_trichotomy x.toNat y.toNat with h | h | h
    · exact Or.inl (by simp [h])
    · rcases charLe_total xs ys with ih | ih
      · exact Or.inl (by simp [show ¬ x.toNat < y.toNat by omega,
          show ¬ y.toNat < x.toNat by omega, ih])
      · exact Or.inr (by simp [show ¬ x.toNat < y.toNat by omega,
          show ¬ y.toNat < x.toNat by omega, ih])
    · exact Or.inr (by simp [h])

theorem charLe_antisymm : ∀ {a b : List Char},
    charLe a b = true → charLe b a = true → a = b
  | [], [], _, _ => rfl
  | _ :: _, [], h1, _ => by simp [charLe] at h1
  | [], _ :: _, _, h2 => by simp [charLe] at h2
  | x :: xs, y :: ys, h1, h2 => by
    simp only [charLe] at h1 h2
    rcases Nat.lt_trichotomy x.toNat y.toNat with h | h | h
    · simp [show ¬ y.toNat < x.toNat by omega, h] at h2
    · have hx : x = y := char_toNat_injective h
      subst hx
      simp only [show ¬ x.toNat < x.toNat by omega, ite_false] at h1 h2
      exact congrArg (x :: ·) (charLe_antisymm h1 h2)
    · simp [show ¬ x.toNat < y.toNat by omega, h] at h1

theorem strLe_trans {a b c : String} (h1 : strLe a b = true)
    (h2 : strLe b c = true) : strLe a c = true :=
  charLe_trans h1 h2

theorem strLe_total (a b : String) : strLe a b = true ∨ strLe b a = true :=
  charLe_total a.data b.data

theorem strLe_antisymm {a b : String} (h1 : strLe a b = true)
    (h2 : strLe b a = true) : a = b :=
  String.ext (charLe_antisymm h1 h2)

/-! Facts about `pySort` and `pySet`. -/

theorem mem_pySort {x : String} {l : List String} : x ∈ pySort l ↔ x ∈ l :=
  (List.perm_insertionSort _ l).mem_iff

theorem sorted_pySort (l : List String) :
    List.Sorted (fun a b => strLe a b = true) (pySort l) := by
  haveI : IsTotal String (fun a b => strLe a b = true) := ⟨strLe_total⟩
  haveI : IsTrans String (fun a b => strLe a b = true) :=
    ⟨fun _ _ _ => strLe_trans⟩
  exact List.sorted_insertionSort _ l

theorem nodup_pySort {l : List String} (h : l.Nodup) : (pySort l).Nodup :=
  (List.perm_insertionSort _ l).nodup_iff.mpr h

theorem pySort_eq_of_mem_iff {l₁ l₂ : List String} (h₁ : l₁.Nodup)
    (h₂ : l₂.Nodup) (hm : ∀ x, x ∈ l₁ ↔ x ∈ l₂) : pySort l₁ = pySort l₂ := by
  haveI : IsAntisymm String (fun a b => strLe a b = true) :=
    ⟨fun _ _ => strLe_antisymm⟩
  refine List.eq_of_perm_of_sorted ?_ (sorted_pySort l₁) (sorted_pySort l₂)
  exact ((List.perm_insertionSort _ l₁).trans
    ((List.perm_ext_iff_of_nodup h₁ h₂).mpr hm)).trans
    (List.perm_insertionSort _ l₂).symm

theorem mem_setAdd {s : List String} {x y : String} :
    y ∈ setAdd s x ↔ y ∈ s ∨ y = x := by
  unfold setAdd
  split_ifs with h
  · refine ⟨Or.inl, ?_⟩
    rintro (hy | rfl)
    · exact hy
    · exact h
  · simp

theorem nodup_setAdd {s : List String} (x : String) (h : s.Nodup) :
    (setAdd s x).Nodup := by
  by_cases hx : x ∈ s <;> simp [setAdd, hx, h, List.nodup_append,
    List.disjoint_singleton]

theorem mem_foldl_setAdd :
    ∀ (l acc : List String) (x : String),
      x ∈ l.foldl setAdd acc ↔ x ∈ acc ∨ x ∈ l := by
  intro l
  induction l with
  | nil => simp
  | cons a as ih =>
    intro acc x
    rw [List.foldl_cons, ih, mem_setAdd]
    simp
    tauto

theorem nodup_foldl_setAdd :
    ∀ (l acc : List String), acc.Nodup → (l.foldl setAdd acc).Nodup := by
  intro l
  induction l with
  | nil => exact fun _ h => h
  | cons a as ih => exact fun acc h => ih _ (nodup_setAdd a h)

theorem mem_pySet {x : String} {l : List String} : x ∈ pySet l ↔ x ∈ l := by
  rw [pySet, mem_foldl_setAdd]
  simp

theorem nodup_pySet (l : List String) : (pySet l).Nodup :=
  nodup_foldl_setAdd l [] List.nodup_nil

/-! Substring containment: how the theorems state that an error message
carries some item verbatim. -/

/-- `sub` occurs contiguously inside `hay`. -/
def strContains (hay sub : String) : Prop :=
  ∃ s t : List Char, hay.data = s ++ sub.data ++ t

theorem strContains_self (s : String) : strContains s s :=
  ⟨[], [], by simp⟩

theorem strContains_append_left {s x : String} (t : String)
    (h : strContains s x) : strContains (t ++ s) x := by
  obtain ⟨u, w, hu⟩ := h
  exact ⟨t.data ++ u, w, by simp [String.data_append, hu]⟩

theorem strContains_append_right {s x : String} (t : String)
    (h : strContains s x) : strContains (s ++ t) x := by
  obtain ⟨u, w, hu⟩ := h
  exact ⟨u, w ++ t.data, by simp [String.data_append, hu]⟩

theorem strContains_joinBullets {l : List String} {x : String} (h : x ∈ l) :
    strContains (joinBullets l) x := by
  induction l with
  | nil => cases h
  | cons a as ih =>
    cases as with
    | nil =>
      rw [List.mem_singleton] at h
      exact h ▸ strContains_self a
    | cons b bs =>
      rcases List.mem_cons.mp h with rfl | hmem
      · exact strContains_append_right _
          (strContains_append_right _ (strContains_self x))
      · exact strContains_append_left _ (ih hmem)

/-! Characterization of the validation scan. -/

theorem collectStep_symbol {reMatch : String → String → Bool}
    {method : MethodProps} {acc : List String × List String} {v : Variable}
    (hs : truthyStr v.symbol = true) :
    collectStep reMatch method acc v = (setAdd acc.1 (v.symbol.getD ""), acc.2) := by
  simp [collectStep, hs]

theorem collectStep_matched {reMatch : String → String → Bool}
    {method : MethodProps} {acc : List String × List String} {v : Variable}
    (hs : truthyStr v.symbol = false)
    (hm : method.vars.any (fun q => reMatch q.target v.target) = true) :
    collectStep reMatch method acc v = acc := by
  simp [collectStep, hs, hm]

theorem collectStep_unmatched {reMatch : String → String → Bool}
    {method : MethodProps} {acc : List String × List String} {v : Variable}
    (hs : truthyStr v.symbol = false)
    (hm : method.vars.any (fun q => reMatch q.target v.target) = false) :
    collectStep reMatch method acc v = (acc.1, setAdd acc.2 v.target) := by
  simp [collectStep, hs, hm]

theorem mem_collect_fst (reMatch : String → String → Bool)
    (method : MethodProps) :
    ∀ (vs : List Variable) (acc : List String × List String) (x : String),
      x ∈ (vs.foldl (collectStep reMatch method) acc).1 ↔
        x ∈ acc.1 ∨ ∃ v ∈ vs, truthyStr v.symbol = true ∧ v.symbol.getD "" = x := by
  intro vs
  induction vs with
  | nil => simp
  | cons v vs ih =>
    intro acc x
    rw [List.foldl_cons]
    by_cases hs : truthyStr v.symbol = true
    · rw [collectStep_symbol hs, ih]
      simp only [mem_setAdd, List.mem_cons]
      constructor
      · rintro ((h | rfl) | ⟨w, hw, h1, h2⟩)
        · exact Or.inl h
        · exact Or.inr ⟨v, Or.inl rfl, hs, rfl⟩
        · exact Or.inr ⟨w, Or.inr hw, h1, h2⟩
      · rintro (h | ⟨w, (rfl | hw), h1, h2⟩)
        · exact Or.inl (Or.inl h)
        · exact Or.inl (Or.inr h2.symm)
        · exact Or.inr ⟨w, hw, h1, h2⟩
    · rw [Bool.not_eq_true] at hs
      have hmain : ∀ acc2 : List String × List String, acc2.1 = acc.1 →
          (x ∈ (vs.foldl (collectStep reMatch method) acc2).1 ↔
            x ∈ acc.1 ∨ ∃ w ∈ vs, truthyStr w.symbol = true ∧
              w.symbol.getD "" = x) := by
        intro acc2 h2
        rw [ih, h2]
      have hsplit : (x ∈ (vs.foldl (collectStep reMatch method)
          (collectStep reMatch method acc v)).1 ↔
            x ∈ acc.1 ∨ ∃ w ∈ vs, truthyStr w.symbol = true ∧
              w.symbol.getD "" = x) := by
        by_cases hm : method.vars.any (fun q => reMatch q.target v.target) = true
        · rw [collectStep_matched hs hm]
          exact hmain acc rfl
        · rw [Bool.not_eq_true] at hm
          rw [collectStep_unmatched hs hm]
          exact hmain _ rfl
      rw [hsplit]
      constructor
      · rintro (h | ⟨w, hw, h1, h2⟩)
        · exact Or.inl h
        · exact Or.inr ⟨w, List.mem_cons_of_mem _ hw, h1, h2⟩
      · rintro (h | ⟨w, hw, h1, h2⟩)
        · exact Or.inl h
        · rcases List.mem_cons.mp hw with rfl | hw2
          · rw [hs] at h1
            cases h1
          · exact Or.inr ⟨w, hw2, h1, h2⟩

theorem mem_collect_snd (reMatch : String → String → Bool)
    (method : MethodProps) :
    ∀ (vs : List Variable) (acc : List String × List String) (x : String),
      x ∈ (vs.foldl (collectStep reMatch method) acc).2 ↔
        x ∈ acc.2 ∨ ∃ v ∈ vs, truthyStr v.symbol = false ∧
          method.vars.any (fun q => reMatch q.target v.target) = false ∧
          v.target = x := by
  intro vs
  induction vs with
  | nil => simp
  | cons v vs ih =>
    intro acc x
    rw [List.foldl_cons]
    by_cases hs : truthyStr v.symbol = true
    · rw [collectStep_symbol hs, ih]
      constructor
      · rintro (h | ⟨w, hw, h1, h2, h3⟩)
        · exact Or.inl h
        · exact Or.inr ⟨w, List.mem_cons_of_mem _ hw, h1, h2, h3⟩
      · rintro (h | ⟨w, hw, h1, h2, h3⟩)
        · exact Or.inl h
        · rcases List.mem_cons.mp hw with rfl | hw2
          · rw [hs] at h1
            cases h1
          · exact Or.inr ⟨w, hw2, h1, h2, h3⟩
    · rw [Bool.not_eq_true] at hs
      by_cases hm : method.vars.any (fun q => reMatch q.target v.target) = true
      · rw [collectStep_matched hs hm, ih]
        constructor
        · rintro (h | ⟨w, hw, h1, h2, h3⟩)
          · exact Or.inl h
          · exact Or.inr ⟨w, List.mem_cons_of_mem _ hw, h1, h2, h3⟩
        · rintro (h | ⟨w, hw, h1, h2, h3⟩)
          · exact Or.inl h
          · rcases List.mem_cons.mp hw with rfl | hw2
            · rw [hm] at h2
              cases h2
            · exact Or.inr ⟨w, hw2, h1, h2, h3⟩
      · rw [Bool.not_eq_true] at hm
        rw [collectStep_unmatched hs hm, ih]
        simp only [mem_setAdd, List.mem_cons]
        constructor
        · rintro ((h | rfl) | ⟨w, hw, h1, h2, h3⟩)
          · exact Or.inl h
          · exact Or.inr ⟨v, Or.inl rfl, hs, hm, rfl⟩
          · exact Or.inr ⟨w, Or.inr hw, h1, h2, h3⟩
        · rintro (h | ⟨w, (rfl | hw), h1, h2, h3⟩)
          · exact Or.inl (Or.inl h)
          · exact Or.inl (Or.inr h3.symm)
          · exact Or.inr ⟨w, hw, h1, h2, h3⟩


theorem collectInvalid_fst_mem {reMatch : String → String → Bool}
    {method : MethodProps} {vs : List Variable} {x : String} :
    x ∈ (collectInvalid reMatch method vs).1 ↔
      ∃ v ∈ vs, truthyStr v.symbol = true ∧ v.symbol.getD "" = x := by
  rw [collectInvalid, mem_collect_fst]
  simp

theorem collectInvalid_snd_mem {reMatch : String → String → Bool}
    {method : MethodProps} {vs : List Variable} {x : String} :
    x ∈ (collectInvalid reMatch method vs).2 ↔
      ∃ v ∈ vs, truthyStr v.symbol = false ∧
        method.vars.any (fun q => reMatch q.target v.target) = false ∧
        v.target = x := by
  rw [collectInvalid, mem_collect_snd]
  simp

theorem collectInvalid_fst_isEmpty {reMatch : String → String → Bool}
    {method : MethodProps} {vs : List Variable} :
    (collectInvalid reMatch method vs).1.isEmpty = false ↔
      ∃ v ∈ vs, truthyStr v.symbol = true := by
  rw [List.isEmpty_eq_false_iff_exists_mem]
  constructor
  · rintro ⟨x, hx⟩
    obtain ⟨v, hv, h1, _⟩ := collectInvalid_fst_mem.mp hx
    exact ⟨v, hv, h1⟩
  · rintro ⟨v, hv, h1⟩
    exact ⟨v.symbol.getD "", collectInvalid_fst_mem.mpr ⟨v, hv, h1, rfl⟩⟩

theorem collectInvalid_snd_isEmpty {reMatch : String → String → Bool}
    {method : MethodProps} {vs : List Variable} :
    (collectInvalid reMatch method vs).2.isEmpty = false ↔
      ∃ v ∈ vs, truthyStr v.symbol = false ∧
        method.vars.any (fun q => reMatch q.target v.target) = false := by
  rw [List.isEmpty_eq_false_iff_exists_mem]
  constructor
  · rintro ⟨x, hx⟩
    obtain ⟨v, hv, h1, h2, _⟩ := collectInvalid_snd_mem.mp hx
    exact ⟨v, hv, h1, h2⟩
  · rintro ⟨v, hv, h1, h2⟩
    exact ⟨v.target, collectInvalid_snd_mem.mpr ⟨v, hv, h1, h2, rfl⟩⟩

/-! Facts about the parameter-resolution loop of core.py:92-94. -/

theorem set_simulation_method_arg_unknown {vsv : String → String → Bool}
    {pv : String → String → Value} {method_props : MethodProps}
    {argument_change : ArgumentChange} (model : Model)
    (kwargs : List (String × Value))
    (h : List.lookup argument_change.kisao_id method_props.parameters = none) :
    set_simulation_method_arg vsv pv method_props argument_change model kwargs =
      .error (.unsupportedParameter
        (unsupportedParameterMsg method_props argument_change)) := by
  simp only [set_simulation_method_arg, h]

theorem lookup_isSome_of_set_simulation_method_arg_ok
    {vsv : String → String → Bool} {pv : String → String → Value}
    {method_props : MethodProps} {argument_change : ArgumentChange}
    {model : Model} {kwargs : List (String × Value)}
    {out : Model × List (String × Value)}
    (h : set_simulation_method_arg vsv pv method_props argument_change model
      kwargs = .ok out) :
    (List.lookup argument_change.kisao_id method_props.parameters).isSome = true := by
  rcases hl : List.lookup argument_change.kisao_id method_props.parameters with _ | p
  · rw [set_simulation_method_arg_unknown model kwargs hl] at h
    cases h
  · rfl

theorem apply_changes_cons (vsv : String → String → Bool)
    (pv : String → String → Value) (method_props : MethodProps)
    (model : Model) (kwargs : List (String × Value)) (c : ArgumentChange)
    (cs : List ArgumentChange) :
    apply_changes vsv pv method_props model kwargs (c :: cs) =
      match set_simulation_method_arg vsv pv method_props c model kwargs with
      | .error e => (model, kwargs, some e)
      | .ok (model2, kwargs2) =>
        apply_changes vsv pv method_props model2 kwargs2 cs := rfl

theorem apply_changes_ok_append {vsv : String → String → Bool}
    {pv : String → String → Value} {method_props : MethodProps} :
    ∀ {l₁ : List ArgumentChange} {model model' : Model}
      {kwargs kwargs' : List (String × Value)} (l₂ : List ArgumentChange),
      apply_changes vsv pv method_props model kwargs l₁ = (model', kwargs', none) →
      apply_changes vsv pv method_props model kwargs (l₁ ++ l₂) =
        apply_changes vsv pv method_props model' kwargs' l₂ := by
  intro l₁
  induction l₁ with
  | nil =>
    intro model model' kwargs kwargs' l₂ h
    simp only [apply_changes, Prod.mk.injEq] at h
    obtain ⟨rfl, rfl, -⟩ := h
    rfl
  | cons c cs ih =>
    intro model model' kwargs kwargs' l₂ h
    simp only [List.cons_append]
    rcases hset : set_simulation_method_arg vsv pv method_props c model kwargs with
      e | ⟨m2, k2⟩
    · simp only [apply_changes_cons, hset] at h
      simp at h
    · simp only [apply_changes_cons, hset] at h ⊢
      exact ih l₂ h

theorem apply_changes_err_of_unknown_mem (vsv : String → String → Bool)
    (pv : String → String → Value) {method_props : MethodProps}
    {c : ArgumentChange}
    (hc : List.lookup c.kisao_id method_props.parameters = none) :
    ∀ (changes : List ArgumentChange) (model : Model)
      (kwargs : List (String × Value)), c ∈ changes →
      (apply_changes vsv pv method_props model kwargs changes).2.2.isSome = true := by
  intro changes
  induction changes with
  | nil => intro _ _ h; cases h
  | cons d ds ih =>
    intro model kwargs hmem
    unfold apply_changes
    rcases hset : set_simulation_method_arg vsv pv method_props d model kwargs with
      e | ⟨m2, k2⟩
    · rfl
    · rcases List.mem_cons.mp hmem with rfl | hmem'
      · have := lookup_isSome_of_set_simulation_method_arg_ok hset
        rw [hc] at this
        cases this
      · exact ih m2 k2 hmem'

/-! The failing paths do not depend on the solver callable or on the
extraction functions: replacing them leaves every stage before their
invocation unchanged. -/

theorem set_simulation_method_arg_setMethod (vsv : String → String → Bool)
    (pv : String → String → Value) (props : MethodProps)
    (f : Model → List (String × Value) → Solution) (c : ArgumentChange)
    (model : Model) (kwargs : List (String × Value)) :
    set_simulation_method_arg vsv pv (setMethod props f) c model kwargs =
      set_simulation_method_arg vsv pv props c model kwargs := rfl

theorem set_simulation_method_arg_setGetResults (vsv : String → String → Bool)
    (pv : String → String → Value) (props : MethodProps)
    (f : Solution → Option String → Value) (c : ArgumentChange)
    (model : Model) (kwargs : List (String × Value)) :
    set_simulation_method_arg vsv pv (setGetResults props f) c model kwargs =
      set_simulation_method_arg vsv pv props c model kwargs := rfl

theorem apply_changes_setMethod (vsv : String → String → Bool)
    (pv : String → String → Value) (props : MethodProps)
    (f : Model → List (String × Value) → Solution) :
    ∀ (changes : List ArgumentChange) (model : Model)
      (kwargs : List (String × Value)),
      apply_changes vsv pv (setMethod props f) model kwargs changes =
        apply_changes vsv pv props model kwargs changes := by
  intro changes
  induction changes with
  | nil => intro _ _; rfl
  | cons c cs ih =>
    intro model kwargs
    unfold apply_changes
    rw [set_simulation_method_arg_setMethod]
    rcases set_simulation_method_arg vsv pv props c model kwargs with e | ⟨m2, k2⟩
    · rfl
    · exact ih m2 k2

theorem apply_changes_setGetResults (vsv : String → String → Bool)
    (pv : String → String → Value) (props : MethodProps)
    (f : Solution → Option String → Value) :
    ∀ (changes : List ArgumentChange) (model : Model)
      (kwargs : List (String × Value)),
      apply_changes vsv pv (setGetResults props f) model kwargs changes =
        apply_changes vsv pv props model kwargs changes := by
  intro changes
  induction changes with
  | nil => intro _ _; rfl
  | cons c cs ih =>
    intro model kwargs
    unfold apply_changes
    rw [set_simulation_method_arg_setGetResults]
    rcases set_simulation_method_arg vsv pv props c model kwargs with e | ⟨m2, k2⟩
    · rfl
    · exact ih m2 k2

theorem validate_variables_setMethod (reMatch : String → String → Bool)
    (props : MethodProps) (f : Model → List (String × Value) → Solution)
    (vs : List Variable) :
    validate_variables reMatch (setMethod props f) vs =
      validate_variables reMatch props vs := rfl

theorem collectStep_setGetResults (reMatch : String → String → Bool)
    (props : MethodProps) (f : Solution → Option String → Value)
    (acc : List String × List String) (v : Variable) :
    collectStep reMatch (setGetResults props f) acc v =
      collectStep reMatch props acc v := by
  unfold collectStep
  have : (setGetResults props f).vars.any (fun q => reMatch q.target v.target) =
      props.vars.any (fun q => reMatch q.target v.target) := by
    rw [setGetResults, List.any_map]
    rfl
  rw [this]

theorem validate_variables_setGetResults (reMatch : String → String → Bool)
    (props : MethodProps) (f : Solution → Option String → Value)
    (vs : List Variable) :
    validate_variables reMatch (setGetResults props f) vs =
      validate_variables reMatch props vs := by
  have hc : collectInvalid reMatch (setGetResults props f) vs =
      collectInvalid reMatch props vs := by
    unfold collectInvalid
    have : ∀ (l : List Variable) (acc : List String × List String),
        l.foldl (collectStep reMatch (setGetResults props f)) acc =
          l.foldl (collectStep reMatch props) acc := by
      intro l
      induction l with
      | nil => intro _; rfl
      | cons v l ih =>
        intro acc
        rw [List.foldl_cons, List.foldl_cons, collectStep_setGetResults, ih]
    exact this vs ([], [])
  have hmsg : ∀ ts, unsupportedVariableMsg (setGetResults props f) ts =
      unsupportedVariableMsg props ts := by
    intro ts
    unfold unsupportedVariableMsg
    rw [setGetResults, List.map_map]
    rfl
  unfold validate_variables
  rw [hc]
  simp only [hmsg]
  rfl

theorem lookup_singleton {α : Type} (a : String) (x : α) :
    List.lookup a [(a, x)] = some x := by
  simp [List.lookup]

/-- C7: for every algorithm identifier not present in the registry, the lookup
stage of `exec_sed_task` fails with `NotFound`, and the failure message carries
every registered identifier together with its display name. -/
theorem exec_sed_task_unknown_algorithm (reMatch : String → String → Bool)
    (vsv : String → String → Bool) (pv : String → String → Value)
    (registry : List (String × MethodProps)) (algorithm_kisao_id : String)
    (changes : List ArgumentChange) (vars : List Variable)
    (ids : List (String × String)) (model : Model)
    (h : List.lookup algorithm_kisao_id registry = none) :
    exec_sed_task reMatch vsv pv registry algorithm_kisao_id changes vars ids
        model =
      .error (.notFound (notFoundMsg registry algorithm_kisao_id)) ∧
    ∀ q ∈ registry,
      strContains (notFoundMsg registry algorithm_kisao_id)
        (q.1 ++ ": " ++ q.2.name) := by
  constructor
  · simp only [exec_sed_task, h]
  · intro q hq
    unfold notFoundMsg
    exact strContains_append_left _
      (strContains_joinBullets (List.mem_map_of_mem _ hq))

/-- C8: a parameter change whose id is not among the algorithm's parameters
makes `set_simulation_method_arg` fail with `UnsupportedParameter`, whose
message carries every parameter id with its name and description; and a task
whose change list contains such a change fails without invoking the solver
(the outcome is the same for every solver callable). -/
theorem unsupported_parameter_change (vsv : String → String → Bool)
    (pv : String → String → Value) (props : MethodProps)
    (change : ArgumentChange) (model : Model)
    (kwargs : List (String × Value))
    (h : List.lookup change.kisao_id props.parameters = none) :
    set_simulation_method_arg vsv pv props change model kwargs =
      .error (.unsupportedParameter (unsupportedParameterMsg props change)) ∧
    (∀ q ∈ props.parameters,
      strContains (unsupportedParameterMsg props change)
        (q.1 ++ " (" ++ q.2.name ++ "): " ++ q.2.description)) ∧
    ∀ (reMatch : String → String → Bool) (aid : String)
      (changes : List ArgumentChange) (vars : List Variable)
      (ids : List (String × String))
      (f g : Model → List (String × Value) → Solution), change ∈ changes →
      exec_sed_task reMatch vsv pv [(aid, setMethod props f)] aid changes vars
          ids model =
        exec_sed_task reMatch vsv pv [(aid, setMethod props g)] aid changes
          vars ids model ∧
      ∃ e, exec_sed_task reMatch vsv pv [(aid, setMethod props f)] aid changes
          vars ids model = .error e := by
  refine ⟨set_simulation_method_arg_unknown model kwargs h, ?_, ?_⟩
  · intro q hq
    unfold unsupportedParameterMsg
    exact strContains_append_left _
      (strContains_joinBullets (List.mem_map_of_mem _ hq))
  · intro reMatch aid changes vars ids f g hmem
    have hsome := apply_changes_err_of_unknown_mem vsv pv h changes model []
      hmem
    rcases hr : apply_changes vsv pv props model [] changes with ⟨m2, k2, oe⟩
    rw [hr] at hsome
    rcases oe with _ | e
    · cases hsome
    · constructor
      · simp only [exec_sed_task, lookup_singleton, apply_changes_setMethod, hr]
      · exact ⟨e, by simp only [exec_sed_task, lookup_singleton,
          apply_changes_setMethod, hr]⟩

/-- C2: when parameter resolution and variable validation succeed but the
solver's solution has any status other than "optimal", the task fails with
`OptimizationFailed` carrying the raw status string verbatim, and the outcome
does not depend on the extraction functions (no variable extraction is
performed, no partial results are returned). -/
theorem non_optimal_status_fails (reMatch : String → String → Bool)
    (vsv : String → String → Bool) (pv : String → String → Value)
    (aid : String) (props : MethodProps) (changes : List ArgumentChange)
    (vars : List Variable) (ids : List (String × String)) (model model2 : Model)
    (kwargs : List (String × Value))
    (happ : apply_changes vsv pv props model [] changes = (model2, kwargs, none))
    (hval : validate_variables reMatch props vars = .ok ())
    (hst : (props.method model2 kwargs).status ≠ "optimal") :
    exec_sed_task reMatch vsv pv [(aid, props)] aid changes vars ids model =
      .error (.optimizationFailed
        (optimizationFailedMsg (props.method model2 kwargs).status)) ∧
    strContains (optimizationFailedMsg (props.method model2 kwargs).status)
      (props.method model2 kwargs).status ∧
    ∀ f g : Solution → Option String → Value,
      exec_sed_task reMatch vsv pv [(aid, setGetResults props f)] aid changes
          vars ids model =
        exec_sed_task reMatch vsv pv [(aid, setGetResults props g)] aid changes
          vars ids model := by
  refine ⟨?_, ?_, ?_⟩
  · simp only [exec_sed_task, lookup_singleton, happ, hval]
    rw [if_pos hst]
  · exact strContains_append_right _
      (strContains_append_left _ (strContains_self _))
  · intro f g
    simp only [exec_sed_task, lookup_singleton, apply_changes_setGetResults,
      happ, validate_variables_setGetResults, hval]
    have hm : ∀ f : Solution → Option String → Value,
        (setGetResults props f).method = props.method := fun _ => rfl
    rw [hm f, hm g, if_pos hst, if_pos hst]

/-- C1 (amended): when the changes before an unknown-id change resolve
successfully without touching the network (e.g. they all route to keyword
arguments), resolution fails with `UnsupportedParameter` and the network is
left unmodified. (As originally stated the claim is false: a preceding valid
change routed to a network attribute persists, see the counterexample.) -/
theorem unknown_parameter_model_untouched (vsv : String → String → Bool)
    (pv : String → String → Value) (props : MethodProps) (model : Model)
    (kwargs kwargs' : List (String × Value)) (pre post : List ArgumentChange)
    (c : ArgumentChange)
    (hpre : apply_changes vsv pv props model kwargs pre = (model, kwargs', none))
    (hc : List.lookup c.kisao_id props.parameters = none) :
    apply_changes vsv pv props model kwargs (pre ++ c :: post) =
      (model, kwargs',
        some (.unsupportedParameter (unsupportedParameterMsg props c))) := by
  rw [apply_changes_ok_append _ hpre]
  simp only [apply_changes_cons, set_simulation_method_arg_unknown _ _ hc]

/-- Fixture for the C1 counterexample: an algorithm with one parameter routed
to a network attribute. -/
def cxProps : MethodProps :=
  { kisao_id := "KISAO_0000437", name := "FBA",
    method := fun _ _ => { status := "optimal" },
    parameters := [("KISAO_0000352",
      { name := "objective", description := "the objective to optimize",
        type := "string", model_arg := some "objective" })],
    vars := [] }

def cxVsv : String → String → Bool := fun _ _ => true

def cxPv : String → String → Value := fun v _ => .str v

def cxModel : Model := { reactions := ["R1"] }

def cxChanges : List ArgumentChange :=
  [⟨"KISAO_0000352", "biomass"⟩, ⟨"KISAO_9999999", "x"⟩]

/-- C1 (counterexample): a change list whose first change mutates a network
attribute and whose second change has an unknown parameter id fails with
`UnsupportedParameter`, but the network does NOT stay unmodified: the first
change's mutation persists. -/
theorem unknown_parameter_model_touched_cex :
    (apply_changes cxVsv cxPv cxProps cxModel [] cxChanges).2.2 =
      some (.unsupportedParameter
        (unsupportedParameterMsg cxProps ⟨"KISAO_9999999", "x"⟩)) ∧
    (apply_changes cxVsv cxPv cxProps cxModel [] cxChanges).1 =
      { reactions := ["R1"], attrs := [("objective", .str "biomass")] } ∧
    (apply_changes cxVsv cxPv cxProps cxModel [] cxChanges).1 ≠ cxModel := by
  refine ⟨rfl, rfl, ?_⟩
  intro h
  have h2 : ([("objective", Value.str "biomass")] : List (String × Value)) = [] :=
    congrArg Model.attrs h
  simp at h2

/-- Witness for the amended C1 theorem at a concrete input. -/
theorem unknown_parameter_model_untouched_witness :
    apply_changes cxVsv cxPv cxProps cxModel [] [⟨"KISAO_9999999", "x"⟩] =
      (cxModel, [],
        some (.unsupportedParameter
          (unsupportedParameterMsg cxProps ⟨"KISAO_9999999", "x"⟩))) :=
  unknown_parameter_model_untouched cxVsv cxPv cxProps cxModel [] [] []
    [⟨"KISAO_9999999", "x"⟩] ⟨"KISAO_9999999", "x"⟩ rfl rfl

theorem mem_invalidReactionValues {ids : List String} {model : Model}
    {t : String} :
    t ∈ invalidReactionValues ids model ↔ t ∈ ids ∧ t ∉ model.reactions := by
  rw [invalidReactionValues, List.mem_filter, mem_pySet]
  simp

theorem strContains_concat {x J : String} (A B : String)
    (h : strContains J x) : strContains (A ++ J ++ B) x :=
  strContains_append_right B (strContains_append_left A h)

/-- C5: an identifier-list ('reaction list') change containing an identifier
that is not a reaction id of the network fails with `InvalidParameterValue`;
the listed offenders are exactly the identifiers absent from the network (not
the valid ones), the message separately carries the network's full reaction-id
list, and both listings are sorted ascending. -/
theorem reaction_list_invalid_ids (vsv : String → String → Bool)
    (pv : String → String → Value) (props : MethodProps)
    (change : ArgumentChange) (param : Parameter) (model : Model)
    (kwargs : List (String × Value)) (ids : List String)
    (hlookup : List.lookup change.kisao_id props.parameters = some param)
    (hvsv : vsv change.new_value param.type = true)
    (henum : param.enum = none)
    (halg : param.alg_arg = some "reaction_list")
    (hpv : pv change.new_value param.type = .list ids)
    (hbad : ∃ x ∈ ids, x ∉ model.reactions) :
    set_simulation_method_arg vsv pv props change model kwargs =
      .error (.invalidParameterValue
        (reactionListMsg props change.kisao_id param
          (invalidReactionValues ids model) model)) ∧
    (∀ t, t ∈ invalidReactionValues ids model ↔
      t ∈ ids ∧ t ∉ model.reactions) ∧
    List.Sorted (fun a b => strLe a b = true)
      (pySort ((invalidReactionValues ids model).map backtick)) ∧
    List.Sorted (fun a b => strLe a b = true)
      (pySort (model.reactions.map backtick)) ∧
    (∀ t ∈ ids, t ∉ model.reactions →
      strContains
        (reactionListMsg props change.kisao_id param
          (invalidReactionValues ids model) model) (backtick t)) ∧
    (∀ r ∈ model.reactions,
      strContains
        (reactionListMsg props change.kisao_id param
          (invalidReactionValues ids model) model) (backtick r)) := by
  have hne : (invalidReactionValues ids model).isEmpty = false := by
    rw [List.isEmpty_eq_false_iff_exists_mem]
    obtain ⟨x, hx, hnr⟩ := hbad
    exact ⟨x, mem_invalidReactionValues.mpr ⟨hx, hnr⟩⟩
  refine ⟨?_, fun _ => mem_invalidReactionValues, sorted_pySort _,
    sorted_pySort _, ?_, ?_⟩
  · simp only [set_simulation_method_arg, hlookup, hvsv, henum, halg, hpv, hne]
    rfl
  · intro t ht hnr
    unfold reactionListMsg
    refine strContains_append_right _ (strContains_append_right _
      (strContains_append_right _ (strContains_append_right _
        (strContains_append_left _ (strContains_joinBullets ?_)))))
    exact mem_pySort.mpr (List.mem_map_of_mem _
      (mem_invalidReactionValues.mpr ⟨ht, hnr⟩))
  · intro r hr
    unfold reactionListMsg
    exact strContains_append_left _
      (strContains_joinBullets (mem_pySort.mpr (List.mem_map_of_mem _ hr)))

/-- C9: an identifier-list ('reaction list') change whose identifiers all
exist in the network routes to the solver, under the 'reaction_list' keyword,
the deduplicated, ascending-sorted list of those identifiers; the routed list
depends only on the set of identifiers, not on their order or multiplicity. -/
theorem reaction_list_valid_ids (vsv : String → String → Bool)
    (pv : String → String → Value) (props : MethodProps)
    (change : ArgumentChange) (param : Parameter) (model : Model)
    (kwargs : List (String × Value)) (ids : List String)
    (hlookup : List.lookup change.kisao_id props.parameters = some param)
    (hvsv : vsv change.new_value param.type = true)
    (henum : param.enum = none)
    (halg : param.alg_arg = some "reaction_list")
    (hpv : pv change.new_value param.type = .list ids)
    (hgood : ∀ x ∈ ids, x ∈ model.reactions) :
    set_simulation_method_arg vsv pv props change model kwargs =
      .ok (model,
        dictSet kwargs "reaction_list" (.list (pySort (pySet ids)))) ∧
    List.Sorted (fun a b => strLe a b = true) (pySort (pySet ids)) ∧
    (pySort (pySet ids)).Nodup ∧
    (∀ x, x ∈ pySort (pySet ids) ↔ x ∈ ids) ∧
    ∀ ids2 : List String, (∀ x, x ∈ ids2 ↔ x ∈ ids) →
      pySort (pySet ids2) = pySort (pySet ids) := by
  have hinv : invalidReactionValues ids model = [] := by
    rw [List.eq_nil_iff_forall_not_mem]
    intro x hx
    obtain ⟨hxids, hxnr⟩ := mem_invalidReactionValues.mp hx
    exact hxnr (hgood x hxids)
  refine ⟨?_, sorted_pySort _, nodup_pySort (nodup_pySet ids),
    fun x => mem_pySort.trans mem_pySet, ?_⟩
  · simp only [set_simulation_method_arg, hlookup, hvsv, henum, halg, hpv,
      hinv]
    rfl
  · intro ids2 hm
    exact pySort_eq_of_mem_iff (nodup_pySet ids2) (nodup_pySet ids)
      (fun x => (mem_pySet.trans (hm x)).trans mem_pySet.symm)

theorem lookup_of_mem_of_nodup_keys {β : Type} :
    ∀ {l : List (String × β)} {a : String} {b : β},
      (a, b) ∈ l → (l.map Prod.fst).Nodup → List.lookup a l = some b := by
  intro l
  induction l with
  | nil => intro a b h _; cases h
  | cons q t ih =>
    intro a b hmem hnodup
    rcases List.mem_cons.mp hmem with rfl | htail
    · simp [List.lookup]
    · obtain ⟨hq, ht⟩ := List.nodup_cons.mp hnodup
      have hne : a ≠ q.1 := by
        intro heq
        exact hq (heq ▸ List.mem_map_of_mem Prod.fst htail)
      simp only [List.lookup, beq_eq_false_iff_ne.mpr hne]
      exact ih htail ht

/-- C6: for every parameter with an enumerated value set whose member names
are lowercase (as the registry's are; the matching is `value.lower()` against
the member names), supplying a member's name in any letter case passes
validation and resolves to that member's underlying value: the whole
resolution outcome is identical for every casing of the name (whatever the
routing), and the resolved value routed is the member's value both on the
keyword-argument route and on the network-attribute (`setattr`) route. -/
theorem enum_case_insensitive (vsv : String → String → Bool)
    (pv : String → String → Value) (props : MethodProps)
    (change : ArgumentChange) (param : Parameter)
    (enumList : List (String × Value)) (n0 : String) (v0 : Value)
    (model : Model) (kwargs : List (String × Value))
    (hlookup : List.lookup change.kisao_id props.parameters = some param)
    (hvsv : vsv change.new_value param.type = true)
    (henum : param.enum = some enumList)
    (hnodup : (enumList.map Prod.fst).Nodup)
    (hmem : (n0, v0) ∈ enumList)
    (hlow : pyLower n0 = n0)
    (hcase : pyLower change.new_value = pyLower n0) :
    (∀ change2 : ArgumentChange, change2.kisao_id = change.kisao_id →
      vsv change2.new_value param.type = true →
      pyLower change2.new_value = pyLower n0 →
      set_simulation_method_arg vsv pv props change2 model kwargs =
        set_simulation_method_arg vsv pv props change model kwargs) ∧
    (∀ a, param.alg_arg = some a → a ≠ "reaction_list" →
      set_simulation_method_arg vsv pv props change model kwargs =
        .ok (model, dictSet kwargs a v0)) ∧
    (param.alg_arg = none → ∀ attr, param.model_arg = some attr →
      set_simulation_method_arg vsv pv props change model kwargs =
        .ok ({ model with attrs := dictSet model.attrs attr v0 }, kwargs)) := by
  have hlower : pyLower change.new_value = n0 := hcase.trans hlow
  have hcontains : (enumList.map Prod.fst).contains (pyLower change.new_value)
      = true := by
    rw [hlower]
    exact List.elem_eq_true_of_mem (List.mem_map_of_mem Prod.fst hmem)
  have hfind : List.lookup (pyLower change.new_value) enumList = some v0 := by
    rw [hlower]
    exact lookup_of_mem_of_nodup_keys hmem hnodup
  refine ⟨?_, ?_, ?_⟩
  · intro change2 hkid hvsv2 hcase2
    have hlower2 : pyLower change2.new_value = n0 := hcase2.trans hlow
    have hcontains2 : (enumList.map Prod.fst).contains
        (pyLower change2.new_value) = true := by
      rw [hlower2]
      exact List.elem_eq_true_of_mem (List.mem_map_of_mem Prod.fst hmem)
    have hfind2 : List.lookup (pyLower change2.new_value) enumList =
        some v0 := by
      rw [hlower2]
      exact lookup_of_mem_of_nodup_keys hmem hnodup
    simp only [set_simulation_method_arg, hkid, hlookup, hvsv, hvsv2, henum,
      hcontains, hcontains2, hfind, hfind2, Option.getD_some]
    simp
  · intro a halg hne
    simp only [set_simulation_method_arg, hlookup, hvsv, henum, hcontains,
      hfind, halg]
    simp [hne]
  · intro halg attr hattr
    simp only [set_simulation_method_arg, hlookup, hvsv, henum, hcontains,
      hfind, halg, hattr]
    simp

/-- C3: `validate_variables` scans the whole list: symbol-bearing variables
(batched) beat unmatched targets; with no symbols, success is exactly "every
variable's target matches some pattern", and otherwise the failure message
carries every unmatched target and every supported pattern with its
description, both sorted ascending. -/
theorem validate_variables_batched (reMatch : String → String → Bool)
    (method : MethodProps) (vs : List Variable) :
    ((∃ v ∈ vs, truthyStr v.symbol = true) →
      validate_variables reMatch method vs =
        .error (.unsupportedSymbol (symbolsMsg method)) ∧
      strContains (symbolsMsg method) method.name ∧
      strContains (symbolsMsg method) method.kisao_id) ∧
    ((∀ v ∈ vs, truthyStr v.symbol = false) →
      (validate_variables reMatch method vs = .ok () ↔
        ∀ v ∈ vs,
          method.vars.any (fun q => reMatch q.target v.target) = true) ∧
      ((∃ v ∈ vs,
          method.vars.any (fun q => reMatch q.target v.target) = false) →
        validate_variables reMatch method vs =
          .error (.unsupportedVariable
            (unsupportedVariableMsg method
              (collectInvalid reMatch method vs).2)) ∧
        (∀ t, t ∈ (collectInvalid reMatch method vs).2 ↔
          ∃ v ∈ vs,
            method.vars.any (fun q => reMatch q.target v.target) = false ∧
            v.target = t) ∧
        (∀ v ∈ vs,
          method.vars.any (fun q => reMatch q.target v.target) = false →
          strContains
            (unsupportedVariableMsg method (collectInvalid reMatch method vs).2)
            (backtick v.target)) ∧
        (∀ p ∈ method.vars,
          strContains
            (unsupportedVariableMsg method (collectInvalid reMatch method vs).2)
            (p.description ++ ": " ++ backtick p.target)) ∧
        List.Sorted (fun a b => strLe a b = true)
          (pySort ((collectInvalid reMatch method vs).2.map backtick)) ∧
        List.Sorted (fun a b => strLe a b = true)
          (pySort (method.vars.map
            (fun q => q.description ++ ": " ++ backtick q.target))))) := by
  constructor
  · intro hsym
    have hf : (collectInvalid reMatch method vs).1.isEmpty = false :=
      collectInvalid_fst_isEmpty.mpr hsym
    refine ⟨by simp [validate_variables, hf], ?_, ?_⟩
    · exact strContains_append_right _ (strContains_append_right _
        (strContains_append_right _ (strContains_self _)))
    · exact strContains_append_right _
        (strContains_append_left _ (strContains_self _))
  · intro hnos
    have h1 : (collectInvalid reMatch method vs).1 = [] := by
      rw [List.eq_nil_iff_forall_not_mem]
      intro x hx
      obtain ⟨v, hv, ht, -⟩ := collectInvalid_fst_mem.mp hx
      rw [hnos v hv] at ht
      cases ht
    constructor
    · constructor
      · intro hok v hv
        by_contra hnm
        rw [Bool.not_eq_true] at hnm
        have h2 : (collectInvalid reMatch method vs).2.isEmpty = false :=
          collectInvalid_snd_isEmpty.mpr ⟨v, hv, hnos v hv, hnm⟩
        simp [validate_variables, h1, h2] at hok
      · intro hall
        have h2 : (collectInvalid reMatch method vs).2 = [] := by
          rw [List.eq_nil_iff_forall_not_mem]
          intro x hx
          obtain ⟨v, hv, -, hnm, -⟩ := collectInvalid_snd_mem.mp hx
          rw [hall v hv] at hnm
          cases hnm
        simp [validate_variables, h1, h2]
    · intro hex
      have h2 : (collectInvalid reMatch method vs).2.isEmpty = false := by
        obtain ⟨v, hv, hnm⟩ := hex
        exact collectInvalid_snd_isEmpty.mpr ⟨v, hv, hnos v hv, hnm⟩
      refine ⟨by simp [validate_variables, h1, h2], ?_, ?_, ?_,
        sorted_pySort _, sorted_pySort _⟩
      · intro t
        rw [collectInvalid_snd_mem]
        constructor
        · rintro ⟨v, hv, -, hnm, ht⟩
          exact ⟨v, hv, hnm, ht⟩
        · rintro ⟨v, hv, hnm, ht⟩
          exact ⟨v, hv, hnos v hv, hnm, ht⟩
      · intro v hv hnm
        unfold unsupportedVariableMsg
        refine strContains_append_right _ (strContains_append_right _
          (strContains_append_left _ (strContains_joinBullets ?_)))
        exact mem_pySort.mpr (List.mem_map_of_mem _
          (collectInvalid_snd_mem.mpr ⟨v, hv, hnos v hv, hnm, rfl⟩))
      · intro p hp
        unfold unsupportedVariableMsg
        exact strContains_append_left _ (strContains_joinBullets
          (mem_pySort.mpr (List.mem_map_of_mem _ hp)))

theorem find?_first {α : Type} (p : α → Bool) :
    ∀ (pre : List α) (a : α) (post : List α), (∀ x ∈ pre, p x = false) →
      p a = true → List.find? p (pre ++ a :: post) = some a := by
  intro pre
  induction pre with
  | nil =>
    intro a post _ ha
    exact List.find?_cons_of_pos _ ha
  | cons x xs ih =>
    intro a post hpre ha
    rw [List.cons_append, List.find?_cons_of_neg]
    · exact ih a post (fun y hy => hpre y (List.mem_cons_of_mem _ hy)) ha
    · simp [hpre x (List.mem_cons_self x xs)]

/-- The one-step unfolding of the extraction loop (utils.py:150-161). -/
theorem get_results_loop_cons (reMatch : String → String → Bool)
    (method : MethodProps) (ids : List (String × String)) (sol : Solution)
    (v : Variable) (rest : List Variable) (acc : List (String × Value))
    (r0 : Option Value) :
    get_results_loop reMatch method ids sol (v :: rest) acc r0 =
      match List.find? (fun q => reMatch q.target v.target) method.vars with
      | some variable_pattern =>
        if variable_pattern.target_type = "reaction" ∨
            variable_pattern.target_type = "species" then
          match List.lookup v.target ids with
          | none => .error (.keyError v.target)
          | some tid =>
            get_results_loop reMatch method ids sol rest
              (dictSet acc v.id (variable_pattern.get_result sol (some tid)))
              (some (variable_pattern.get_result sol (some tid)))
        else
          get_results_loop reMatch method ids sol rest
            (dictSet acc v.id (variable_pattern.get_result sol none))
            (some (variable_pattern.get_result sol none))
      | none =>
        match r0 with
        | none => .error (.unboundLocal "result")
        | some result =>
          get_results_loop reMatch method ids sol rest
            (dictSet acc v.id result) (some result) := rfl

/-- C4: when a variable's target matches some pattern, validation accepts it
(a match exists), and extraction applies the extraction function of the FIRST
matching pattern in the declared order, with the id-lookup argument exactly
for reaction/species patterns. -/
theorem first_match_wins (reMatch : String → String → Bool)
    (method : MethodProps) (v : Variable) (pre post : List VariablePattern)
    (p : VariablePattern) (sol : Solution) (ids : List (String × String))
    (hvars : method.vars = pre ++ p :: post)
    (hpre : ∀ q ∈ pre, reMatch q.target v.target = false)
    (hp : reMatch p.target v.target = true)
    (hsym : truthyStr v.symbol = false) :
    validate_variables reMatch method [v] = .ok () ∧
    (p.target_type ≠ "reaction" → p.target_type ≠ "species" →
      get_results_of_variables reMatch method [v] ids sol =
        .ok [(v.id, p.get_result sol none)]) ∧
    (∀ tid, (p.target_type = "reaction" ∨ p.target_type = "species") →
      List.lookup v.target ids = some tid →
      get_results_of_variables reMatch method [v] ids sol =
        .ok [(v.id, p.get_result sol (some tid))]) := by
  have hfind : List.find? (fun q => reMatch q.target v.target) method.vars =
      some p := by
    rw [hvars]
    exact find?_first _ pre p post hpre hp
  have hany : method.vars.any (fun q => reMatch q.target v.target) = true := by
    rw [List.any_eq_true]
    refine ⟨p, ?_, hp⟩
    rw [hvars]
    exact List.mem_append_right _ (List.mem_cons_self p post)
  refine ⟨?_, ?_, ?_⟩
  · have hcol : collectInvalid reMatch method [v] = ([], []) := by
      unfold collectInvalid
      rw [List.foldl_cons, collectStep_matched hsym hany]
      rfl
    simp [validate_variables, hcol]
  · intro h1 h2
    have hnot : ¬(p.target_type = "reaction" ∨ p.target_type = "species") := by
      rintro (h | h)
      exacts [h1 h, h2 h]
    simp only [get_results_of_variables, get_results_loop_cons, hfind]
    rw [if_neg hnot]
    simp [get_results_loop, dictSet]
  · intro tid hor hlook
    simp only [get_results_of_variables, get_results_loop_cons, hfind]
    rw [if_pos hor]
    simp only [hlook]
    simp [get_results_loop, dictSet]

/-- C10 (implicit): extraction is only safe when every target matches some
pattern. A first variable with an unmatched target makes
`get_results_of_variables` fail with Python's unbound-local error (not a
diagnostic `UnsupportedVariable`); a later unmatched variable instead silently
receives the result computed for the most recent preceding matched variable. -/
theorem unmatched_variable_unchecked (reMatch : String → String → Bool)
    (method : MethodProps) (ids : List (String × String)) (sol : Solution)
    (v1 v2 : Variable) (p : VariablePattern)
    (hfind1 : List.find? (fun q => reMatch q.target v1.target) method.vars =
      some p)
    (ht1 : p.target_type ≠ "reaction") (ht2 : p.target_type ≠ "species")
    (hfind2 : List.find? (fun q => reMatch q.target v2.target) method.vars =
      none)
    (hid : v1.id ≠ v2.id) :
    (∀ rest : List Variable,
      get_results_of_variables reMatch method (v2 :: rest) ids sol =
        .error (.unboundLocal "result")) ∧
    get_results_of_variables reMatch method [v1, v2] ids sol =
      .ok [(v1.id, p.get_result sol none), (v2.id, p.get_result sol none)] := by
  have hnot : ¬(p.target_type = "reaction" ∨ p.target_type = "species") := by
    rintro (h | h)
    exacts [ht1 h, ht2 h]
  constructor
  · intro rest
    simp only [get_results_of_variables, get_results_loop_cons, hfind2]
  · simp only [get_results_of_variables, get_results_loop_cons, hfind1]
    rw [if_neg hnot]
    simp only [get_results_loop_cons, hfind2]
    simp [get_results_loop, dictSet, hid]

/-! Concrete fixtures used by the witnesses. `wReMatch` instantiates
`re.match` with match-at-start-of-string (prefix) semantics. -/

def fluxPattern : VariablePattern :=
  { target := "flux", description := "reaction flux", target_type := "reaction",
    get_result := fun sol tid => (List.lookup (tid.getD "") sol.fluxes).getD
      (.num 0) }

def objPattern : VariablePattern :=
  { target := "obj", description := "objective value",
    target_type := "objective", get_result := fun sol _ => sol.objective_value }

def rlParam : Parameter :=
  { name := "reactions", description := "reactions to report", type := "list",
    alg_arg := some "reaction_list" }

def solverParam : Parameter :=
  { name := "solver", description := "the solver to use", type := "string",
    enum := some [("cplex", .str "CPLEX"), ("glpk", .str "GLPK")],
    alg_arg := some "solver" }

def objSenseParam : Parameter :=
  { name := "objective sense", description := "the direction to optimize",
    type := "string",
    enum := some [("max", .str "maximize"), ("min", .str "minimize")],
    model_arg := some "objective_direction" }

def wProps : MethodProps :=
  { kisao_id := "KISAO_0000437", name := "FBA",
    method := fun _ _ => { status := "infeasible" },
    parameters := [("KISAO_0000534", rlParam), ("KISAO_0000553", solverParam),
      ("KISAO_0000552", objSenseParam)],
    vars := [objPattern, fluxPattern] }

def wReMatch : String → String → Bool := fun pat t => pat.data.isPrefixOf t.data

def wVsv : String → String → Bool := fun _ _ => true

def wPvStr : String → String → Value := fun s _ => .str s

def wPvList : String → String → Value := fun _ _ => .list ["R2", "R1", "R2"]

def wPvBad : String → String → Value := fun _ _ => .list ["R9", "R1"]

def wModel : Model := { reactions := ["R1", "R2"] }

def wSol : Solution := { status := "optimal", fluxes := [("R1", .num 32)] }

def wIds : List (String × String) := [("fluxR1", "R1")]

def wSymVar : Variable :=
  { id := "vt", symbol := some "urn:sedml:symbol:time", target := "" }

def wObjVar : Variable := { id := "vo", target := "obj" }

def wFluxVar : Variable := { id := "vf", target := "fluxR1" }

def wBadVar : Variable := { id := "vb", target := "zzz" }

/-- Witness for C2 at a concrete input. -/
theorem non_optimal_status_fails_witness :
    exec_sed_task wReMatch wVsv wPvStr [("KISAO_0000437", wProps)]
        "KISAO_0000437" [] [] [] wModel =
      .error (.optimizationFailed
        (optimizationFailedMsg (wProps.method wModel []).status)) :=
  (non_optimal_status_fails wReMatch wVsv wPvStr "KISAO_0000437" wProps
    [] [] [] wModel wModel [] rfl rfl (by decide)).1

/-- Witness for C7 at a concrete input. -/
theorem exec_sed_task_unknown_algorithm_witness :
    exec_sed_task wReMatch wVsv wPvStr [("KISAO_0000437", wProps)]
        "KISAO_0000999" [] [] [] wModel =
      .error (.notFound
        (notFoundMsg [("KISAO_0000437", wProps)] "KISAO_0000999")) :=
  (exec_sed_task_unknown_algorithm wReMatch wVsv wPvStr
    [("KISAO_0000437", wProps)] "KISAO_0000999" [] [] [] wModel rfl).1

/-- Witness for C8 at a concrete input. -/
theorem unsupported_parameter_change_witness :
    set_simulation_method_arg wVsv wPvStr wProps ⟨"KISAO_9999999", "x"⟩ wModel
        [] =
      .error (.unsupportedParameter
        (unsupportedParameterMsg wProps ⟨"KISAO_9999999", "x"⟩)) :=
  (unsupported_parameter_change wVsv wPvStr wProps ⟨"KISAO_9999999", "x"⟩
    wModel [] rfl).1

/-- Witness for C5 at a concrete input. -/
theorem reaction_list_invalid_ids_witness :
    set_simulation_method_arg wVsv wPvBad wProps ⟨"KISAO_0000534", "[R9, R1]"⟩
        wModel [] =
      .error (.invalidParameterValue
        (reactionListMsg wProps "KISAO_0000534" rlParam
          (invalidReactionValues ["R9", "R1"] wModel) wModel)) :=
  (reaction_list_invalid_ids wVsv wPvBad wProps ⟨"KISAO_0000534", "[R9, R1]"⟩
    rlParam wModel [] ["R9", "R1"] rfl rfl rfl rfl rfl
    ⟨"R9", by decide, by decide⟩).1

/-- Witness for C9 at a concrete input. -/
theorem reaction_list_valid_ids_witness :
    set_simulation_method_arg wVsv wPvList wProps
        ⟨"KISAO_0000534", "[R2, R1, R2]"⟩ wModel [] =
      .ok (wModel,
        dictSet [] "reaction_list" (.list (pySort (pySet ["R2", "R1", "R2"])))) :=
  (reaction_list_valid_ids wVsv wPvList wProps ⟨"KISAO_0000534", "[R2, R1, R2]"⟩
    rlParam wModel [] ["R2", "R1", "R2"] rfl rfl rfl rfl rfl (by decide)).1

/-- Witness for C6 at concrete inputs: "GLPK" in upper case resolves to the
"glpk" member's value on the keyword route, "MaX" in mixed case resolves to
the "max" member's value on the network-attribute route, and a further casing
of "glpk" produces the identical outcome. -/
theorem enum_case_insensitive_witness :
    set_simulation_method_arg wVsv wPvStr wProps ⟨"KISAO_0000553", "GLPK"⟩
        wModel [] =
      .ok (wModel, dictSet [] "solver" (.str "GLPK")) ∧
    set_simulation_method_arg wVsv wPvStr wProps ⟨"KISAO_0000552", "MaX"⟩
        wModel [] =
      .ok ({ wModel with
        attrs := dictSet wModel.attrs "objective_direction" (.str "maximize") },
        []) ∧
    set_simulation_method_arg wVsv wPvStr wProps ⟨"KISAO_0000553", "gLpK"⟩
        wModel [] =
      set_simulation_method_arg wVsv wPvStr wProps ⟨"KISAO_0000553", "GLPK"⟩
        wModel [] :=
  ⟨(enum_case_insensitive wVsv wPvStr wProps ⟨"KISAO_0000553", "GLPK"⟩
      solverParam [("cplex", .str "CPLEX"), ("glpk", .str "GLPK")] "glpk"
      (.str "GLPK") wModel [] rfl rfl rfl (by decide) (by decide) rfl
      rfl).2.1 "solver" rfl (by decide),
   (enum_case_insensitive wVsv wPvStr wProps ⟨"KISAO_0000552", "MaX"⟩
      objSenseParam [("max", .str "maximize"), ("min", .str "minimize")] "max"
      (.str "maximize") wModel [] rfl rfl rfl (by decide) (by decide) rfl
      rfl).2.2 rfl "objective_direction" rfl,
   (enum_case_insensitive wVsv wPvStr wProps ⟨"KISAO_0000553", "GLPK"⟩
      solverParam [("cplex", .str "CPLEX"), ("glpk", .str "GLPK")] "glpk"
      (.str "GLPK") wModel [] rfl rfl rfl (by decide) (by decide) rfl
      rfl).1 ⟨"KISAO_0000553", "gLpK"⟩ rfl rfl rfl⟩

/-- Witness for C3 at concrete inputs: a symbol variable fails with
`UnsupportedSymbol`, a matched target validates, an unmatched target fails
with `UnsupportedVariable`. -/
theorem validate_variables_batched_witness :
    validate_variables wReMatch wProps [wSymVar] =
      .error (.unsupportedSymbol (symbolsMsg wProps)) ∧
    validate_variables wReMatch wProps [wObjVar] = .ok () ∧
    validate_variables wReMatch wProps [wBadVar] =
      .error (.unsupportedVariable
        (unsupportedVariableMsg wProps
          (collectInvalid wReMatch wProps [wBadVar]).2)) :=
  ⟨((validate_variables_batched wReMatch wProps [wSymVar]).1
      ⟨wSymVar, by simp, rfl⟩).1,
   ((validate_variables_batched wReMatch wProps [wObjVar]).2
      (by intro v hv; simp at hv; subst hv; rfl)).1.mpr
      (by intro v hv; simp at hv; subst hv; rfl),
   (((validate_variables_batched wReMatch wProps [wBadVar]).2
      (by intro v hv; simp at hv; subst hv; rfl)).2
      ⟨wBadVar, by simp, rfl⟩).1⟩

/-- Witness for C4 at a concrete input: the pattern list is
`[objPattern, fluxPattern]`, the target matches only the second entry, and
extraction applies that entry's function with the looked-up reaction id. -/
theorem first_match_wins_witness :
    validate_variables wReMatch wProps [wFluxVar] = .ok () ∧
    get_results_of_variables wReMatch wProps [wFluxVar] wIds wSol =
      .ok [(wFluxVar.id, fluxPattern.get_result wSol (some "R1"))] :=
  ⟨(first_match_wins wReMatch wProps wFluxVar [objPattern] [] fluxPattern wSol
      wIds rfl (by intro q hq; simp at hq; subst hq; rfl) rfl rfl).1,
   (first_match_wins wReMatch wProps wFluxVar [objPattern] [] fluxPattern wSol
      wIds rfl (by intro q hq; simp at hq; subst hq; rfl) rfl rfl).2.2 "R1"
      (Or.inl rfl) rfl⟩

/-- Witness for C10 at a concrete input. -/
theorem unmatched_variable_unchecked_witness :
    get_results_of_variables wReMatch wProps [wBadVar] wIds wSol =
      .error (.unboundLocal "result") ∧
    get_results_of_variables wReMatch wProps [wObjVar, wBadVar] wIds wSol =
      .ok [(wObjVar.id, objPattern.get_result wSol none),
           (wBadVar.id, objPattern.get_result wSol none)] :=
  ⟨(unmatched_variable_unchecked wReMatch wProps wIds wSol wObjVar wBadVar
      objPattern rfl (by decide) (by decide) rfl (by decide)).1 [],
   (unmatched_variable_unchecked wReMatch wProps wIds wSol wObjVar wBadVar
      objPattern rfl (by decide) (by decide) rfl (by decide)).2⟩
